import Mathlib

/-!
# A verification development for the Pexels client (`main.go`)

The client of `main.go` is glue between three library services: `net/http`
(building and sending a request), `strconv.Atoi` (reading the remaining-quota
header) and `encoding/json` (decoding a body).  The embedding below keeps the
control flow of every method of `Client` as it is written in the source and
makes the services explicit:

* what the network and the JSON decoder answer is a parameter, `Env`;
* `strconv.Atoi` and the two verbs of `fmt.Sprintf` that the source uses are
  defined, so that headers and URLs can be computed;
* a method with a pointer receiver returns the receiver after the call;
* a Go call either returns its values or panics (`Outcome`).
-/

set_option autoImplicit false

namespace Pexels

/-! ## Errors, outcomes -/

/-- The two reasons for which `strconv` rejects a number (`ErrSyntax`, `ErrRange`). -/
inductive NumErrKind where
  | invalid
  | outOfRange
  deriving DecidableEq, Repr

/-- Values of Go's `error` interface that can reach the client: a
`*strconv.NumError`, or an error made by `net/http`, `io` or `encoding/json`,
of which only the message is kept. -/
inductive Error where
  | num (Func : String) (Num : String) (Err : NumErrKind)
  | lib (msg : String)
  deriving DecidableEq, Repr

deriving instance DecidableEq for Except

/-- What a call of a Go function yields: its return values, or a run-time panic. -/
inductive Outcome (α : Type) where
  | ret (v : α)
  | panic (msg : String)
  deriving DecidableEq, Repr

/-- The run-time error of a field access through a nil pointer. -/
def nilDeref : String := "invalid memory address or nil pointer dereference"

/-- The run-time error of `s[0]` on a slice of length 0. -/
def indexOutOfRange : String := "index out of range [0] with length 0"

/-! ## 32 and 64 bit integers -/

/-- The conversion `int32(x)` of an `int`: the low 32 bits, read in two's complement. -/
def toInt32 (x : Int) : Int := (x + 2 ^ 31) % 2 ^ 32 - 2 ^ 31

/-- The values of an `int32`. -/
def isInt32 (x : Int) : Prop := -(2 ^ 31) ≤ x ∧ x < 2 ^ 31

instance (x : Int) : Decidable (isInt32 x) := by unfold isInt32; infer_instance

/-! ## `strconv.Atoi` -/

/-- The value of a decimal digit, `none` for any other character. -/
def digitVal (c : Char) : Option Nat :=
  if '0' ≤ c ∧ c ≤ '9' then some (c.toNat - '0'.toNat) else none

/-- The digit loop of `strconv.ParseUint(s, 10, 64)`: `n` is the value read so far.
A character that is not a digit is a syntax error; a value above `2^64 - 1` is
a range error, reported as soon as it is reached. -/
def parseUintLoop : List Char → Nat → Except NumErrKind Nat
  | [], n => .ok n
  | c :: cs, n =>
    match digitVal c with
    | none => .error .invalid
    | some d =>
      if n ≥ (2 ^ 64 - 1) / 10 + 1 then .error .outOfRange
      else if n * 10 + d > 2 ^ 64 - 1 then .error .outOfRange
      else parseUintLoop cs (n * 10 + d)

/-- The function `strconv.ParseUint(s, 10, 64)`. -/
def parseUint (s : List Char) : Except NumErrKind Nat :=
  match s with
  | [] => .error .invalid
  | _ => parseUintLoop s 0

/-- The function `strconv.ParseInt(s, 10, 0)` on a 64-bit platform: an optional
sign, then `ParseUint`, then the check that the value is an `int64`. -/
def parseInt (s : List Char) : Except NumErrKind Int :=
  match s with
  | [] => .error .invalid
  | c :: cs =>
    let neg := c = '-'
    let digits := if c = '+' ∨ c = '-' then cs else c :: cs
    match parseUint digits with
    | .error .invalid => .error .invalid
    | .error .outOfRange => .error .outOfRange
    | .ok un =>
      if ¬ neg ∧ un ≥ 2 ^ 63 then .error .outOfRange
      else if neg ∧ un > 2 ^ 63 then .error .outOfRange
      else .ok (if neg then -(un : Int) else (un : Int))

/-- The function `strconv.Atoi` (64-bit `int`).  Its documentation gives it as
`ParseInt(s, 10, 0)` converted to `int`; the fast path for short strings
computes the same result.  The error is a `*NumError` with `Func` set to
`"Atoi"`. -/
def Atoi (s : String) : Except Error Int :=
  match parseInt s.data with
  | .ok n => .ok n
  | .error k => .error (.num "Atoi" s k)

/-! ## `fmt.Sprintf`, verbs `%s` and `%d` -/

/-- An operand of `Sprintf`, with its Go type. -/
inductive Arg where
  | str (s : String)
  | int32 (i : Int)
  | int (i : Int)
  deriving DecidableEq, Repr

/-- Decimal rendering of an integer, as `%d` prints it: a minus sign for a
negative number, then the digits. -/
def formatInt (i : Int) : String :=
  if i < 0 then "-" ++ Nat.repr i.natAbs else Nat.repr i.toNat

/-- Name of the Go type of an operand, used in the bad-verb notation. -/
def Arg.typeName : Arg → String
  | .str _ => "string"
  | .int32 _ => "int32"
  | .int _ => "int"

/-- An operand printed with `%v`. -/
def Arg.value : Arg → String
  | .str s => s
  | .int32 i => formatInt i
  | .int i => formatInt i

/-- One operand under one verb.  `%s` prints a string as it is, `%d` an integer
in decimal, `%v` either; a verb that does not fit the operand prints
`%!verb(type=value)`. -/
def formatArg (verb : Char) (a : Arg) : List Char :=
  match verb, a with
  | 's', .str s => s.data
  | 'd', .int32 i => (formatInt i).data
  | 'd', .int i => (formatInt i).data
  | 'v', a => a.value.data
  | v, a => '%' :: '!' :: v :: '(' :: (a.typeName.data ++ '=' :: (a.value.data ++ [')']))

/-- The operands after the first one in the `EXTRA` notation, each after a comma. -/
def formatExtraTail : List Arg → List Char
  | [] => []
  | b :: bs => ", ".data ++ (b.typeName.data ++ '=' :: (b.value.data ++ formatExtraTail bs))

/-- Operands left over when the format is exhausted: `%!(EXTRA type=value, ...)`. -/
def formatExtra : List Arg → List Char
  | [] => []
  | a :: as =>
    "%!(EXTRA ".data ++ (a.typeName.data ++ '=' :: (a.value.data ++ (formatExtraTail as ++ [')'])))

/-- The scan of the format string by `Sprintf`: ordinary characters are copied,
`%%` is a percent sign, `%` and a verb consume the next operand, which is
printed and never scanned again. -/
def sprintfAux : List Char → List Arg → List Char
  | [], as => formatExtra as
  | ['%'], _ => "%!(NOVERB)".data
  | '%' :: '%' :: fmt, as => '%' :: sprintfAux fmt as
  | '%' :: v :: fmt, [] => ('%' :: '!' :: v :: "(MISSING)".data) ++ sprintfAux fmt []
  | '%' :: v :: fmt, a :: as => formatArg v a ++ sprintfAux fmt as
  | c :: fmt, as => c :: sprintfAux fmt as

/-- The function `fmt.Sprintf` for formats made of text, `%%` and plain verbs. -/
def Sprintf (format : String) (args : List Arg) : String :=
  String.mk (sprintfAux format.data args)

/-! ## Data model -/

/-- The constant `PHOTO_API`. -/
def PHOTO_API : String := "http://api.pexels.com/v1"

/-- The constant `VIDEO_API`. -/
def VIDEO_API : String := "http://api.pexels.com/videos"

/-- The type `http.Client`, of which the source only ever uses the zero value
(no timeout, default redirect policy, default transport). -/
structure HttpClient where
  Timeout : Int := 0
  deriving DecidableEq, Repr

/-- The struct `Client`.  `RemainingTimes` is an `int32`. -/
structure Client where
  Token : String
  hc : HttpClient
  RemainingTimes : Int
  deriving DecidableEq, Repr

/-- The struct `PhotoSource`. -/
structure PhotoSource where
  Original : String
  Large : String
  Large2x : String
  Medium : String
  Small : String
  Potrait : String
  Square : String
  Landscape : String
  Tiny : String
  deriving DecidableEq, Repr

/-- The struct `Photo`. -/
structure Photo where
  Id : Int
  Width : Int
  Height : Int
  Url : String
  Photographer : String
  PhotographerUrl : String
  Src : PhotoSource
  deriving DecidableEq, Repr

/-- The struct `CuratedResult`. -/
structure CuratedResult where
  Page : Int
  PerPage : Int
  NextPage : Int
  Photos : List Photo
  deriving DecidableEq, Repr

/-- The struct `SearchResult`. -/
structure SearchResult where
  Page : Int
  PerPage : Int
  TotalResults : Int
  NextPage : String
  Photos : List Photo
  deriving DecidableEq, Repr

/-- The struct `VideoFile`. -/
structure VideoFile where
  Id : Int
  Quality : String
  FileType : String
  Width : Int
  Height : Int
  Link : String
  deriving DecidableEq, Repr

/-- The struct `VideoPictures`. -/
structure VideoPictures where
  Id : Int
  Picture : String
  Nr : Int
  deriving DecidableEq, Repr

/-- The struct `Video`.  The untyped `FullRes` and the `float64` `Duration` are
carried as the JSON text they were decoded from; no method looks at them. -/
structure Video where
  Id : Int
  Width : Int
  Height : Int
  Url : String
  Image : String
  FullRes : String
  Duration : String
  VideoFiles : List VideoFile
  VideoPictures : List VideoPictures
  deriving DecidableEq, Repr

/-- The struct `VideoSearchResult`. -/
structure VideoSearchResult where
  Page : Int
  PerPage : Int
  TotalResults : Int
  NextPage : String
  Videos : List Video
  deriving DecidableEq, Repr

/-- The struct `PopulorVideos`. -/
structure PopulorVideos where
  Page : Int
  PerPage : Int
  TotalResults : Int
  Url : String
  Videos : List Video
  deriving DecidableEq, Repr

/-! ## The library boundary: `net/http`, `io`, `encoding/json`, `math/rand` -/

/-- The type `http.Header`, a map from canonical header names to their values. -/
abbrev Header := List (String × List String)

/-- The method `Header.Get` for a key already in canonical form, such as
`X-Ratelimit-Remaining`: the first value stored under the key, and the empty
string when there is none. -/
def Header.Get (h : Header) (key : String) : String :=
  match h.lookup key with
  | some (v :: _) => v
  | _ => ""

/-- A request as `requestDoWithAuth` builds it: method, URL, header. -/
structure Request where
  Method : String
  URL : String
  Header : Header
  deriving DecidableEq, Repr

/-- A response body: what `io.ReadAll` yields on it and what `Close` returns. -/
structure Body where
  ReadAll : String × Option Error
  Close : Option Error
  deriving DecidableEq, Repr

/-- The part of `http.Response` that the client reads. -/
structure Response where
  StatusCode : Int
  Header : Header
  Body : Body
  deriving DecidableEq, Repr

/-- What `http.Client.Do` returns.  With a nil error the response is never
nil; with an error there is usually none (the redirect policy is the one case
in which a response comes with the error). -/
inductive DoResult where
  | ok (resp : Response)
  | fail (resp : Option Response) (err : Error)
  deriving DecidableEq, Repr

/-- The answers of the world outside the program.
* `NewRequest method url` is the error of `http.NewRequest`, if any;
* `Do` is `http.Client.Do` on the one request a method sends;
* `Unmarshal...` is `json.Unmarshal` into a zero value of the given type: the
  value after the call and the error;
* `Intn n` is the draw of `rand.Intn(n)`. -/
structure Env where
  NewRequest : String → String → Option Error
  Do : Request → DoResult
  UnmarshalSearchResult : String → SearchResult × Option Error
  UnmarshalCuratedResult : String → CuratedResult × Option Error
  UnmarshalPhoto : String → Photo × Option Error
  UnmarshalVideoSearchResult : String → VideoSearchResult × Option Error
  UnmarshalPopulorVideos : String → PopulorVideos × Option Error
  Intn : Int → Int

/-- A method call on a `*Client`: the receiver after the call, the
`(method, url)` of every `http.NewRequest` the call made, and what it yields. -/
structure Run (α : Type) where
  client : Client
  requests : List (String × String)
  out : α

/-! ## The methods of `Client` -/

/-- The function `NewClient`: the token as given, a zero `http.Client`, and
`RemainingTimes` left at the zero value of `int32`. -/
def NewClient (token : String) : Client :=
  { Token := token, hc := {}, RemainingTimes := 0 }

/-- The request that `requestDoWithAuth` hands to `Do`. -/
def authRequest (c : Client) (method url : String) : Request :=
  { Method := method, URL := url, Header := [("Authorization", [c.Token])] }

/-- The method `requestDoWithAuth`. -/
def requestDoWithAuth (env : Env) (c : Client) (method url : String) :
    Run (Option Response × Option Error) :=
  match env.NewRequest method url with
  | some err => ⟨c, [(method, url)], (none, some err)⟩
  | none =>
    let req : Request := { Method := method, URL := url, Header := [("Authorization", [c.Token])] }
    match env.Do req with
    | .fail resp err => ⟨c, [(method, url)], (resp, some err)⟩
    | .ok resp =>
      match Atoi (resp.Header.Get "X-Ratelimit-Remaining") with
      | .error err => ⟨c, [(method, url)], (some resp, some err)⟩
      | .ok times =>
        ⟨{ c with RemainingTimes := toInt32 times }, [(method, url)], (some resp, none)⟩

/-- The method `SearchPhotos`.  The closure deferred right after the request
runs when the function leaves, whatever the return statement; it reads
`resp.Body` and so panics when `resp` is nil.  An error of `Close` is only
printed. -/
def SearchPhotos (env : Env) (c : Client) (query : String) (perPage page : Int) :
    Run (Outcome (Option SearchResult × Option Error)) :=
  let url := Sprintf (PHOTO_API ++ "/search?query=%s&per_page=%d&page=%d")
    [.str query, .int32 perPage, .int32 page]
  let r := requestDoWithAuth env c "GET" url
  let resp := r.out.1
  let returned : Outcome (Option SearchResult × Option Error) :=
    match r.out.2 with
    | some err => .ret (none, some err)
    | none =>
      match resp with
      | none => .panic nilDeref
      | some rp =>
        match rp.Body.ReadAll with
        | (_, some err) => .ret (none, some err)
        | (data, none) =>
          match env.UnmarshalSearchResult data with
          | (_, some err) => .ret (none, some err)
          | (result, none) => .ret (some result, none)
  let deferred : Outcome (Option SearchResult × Option Error) :=
    match resp with
    | none => .panic nilDeref
    | some _ => returned
  ⟨r.client, r.requests, deferred⟩

/-- The method `CuratedPhotos`. -/
def CuratedPhotos (env : Env) (c : Client) (perPage page : Int) :
    Run (Outcome (Option CuratedResult × Option Error)) :=
  let url := Sprintf (PHOTO_API ++ "/curated?per_page=%d&page=%d") [.int perPage, .int page]
  let r := requestDoWithAuth env c "GET" url
  let out : Outcome (Option CuratedResult × Option Error) :=
    match r.out.2 with
    | some err => .ret (none, some err)
    | none =>
      match r.out.1 with
      | none => .panic nilDeref
      | some rp =>
        match rp.Body.ReadAll with
        | (_, some err) => .ret (none, some err)
        | (data, none) =>
          let (result, err) := env.UnmarshalCuratedResult data
          .ret (some result, err)
  ⟨r.client, r.requests, out⟩

/-- The method `GetPhotos`. -/
def GetPhotos (env : Env) (c : Client) (id : Int) :
    Run (Outcome (Option Photo × Option Error)) :=
  let url := Sprintf (PHOTO_API ++ "/photos/%d") [.int32 id]
  let r := requestDoWithAuth env c "GET" url
  let out : Outcome (Option Photo × Option Error) :=
    match r.out.2 with
    | some err => .ret (none, some err)
    | none =>
      match r.out.1 with
      | none => .panic nilDeref
      | some rp =>
        match rp.Body.ReadAll with
        | (_, some err) => .ret (none, some err)
        | (data, none) =>
          let (result, err) := env.UnmarshalPhoto data
          .ret (some result, err)
  ⟨r.client, r.requests, out⟩

/-- The statements of `GetRandomPhotos` after the call of `CuratedPhotos`:
`if err == nil && len(results.Photos) == 0 { return &results.Photos[0], nil }`
and then `return nil, err`. -/
def GetRandomPhotos.pick (results : Option CuratedResult) (err : Option Error) :
    Outcome (Option Photo × Option Error) :=
  match err with
  | some e => .ret (none, some e)
  | none =>
    match results with
    | none => .panic nilDeref
    | some res =>
      if res.Photos.length = 0 then
        match res.Photos[0]? with
        | none => .panic indexOutOfRange
        | some p => .ret (some p, none)
      else .ret (none, none)

/-- The method `GetRandomPhotos`. -/
def GetRandomPhotos (env : Env) (c : Client) : Run (Outcome (Option Photo × Option Error)) :=
  let randNum := env.Intn 1001
  let r := CuratedPhotos env c 1 randNum
  match r.out with
  | .panic msg => ⟨r.client, r.requests, .panic msg⟩
  | .ret (results, err) => ⟨r.client, r.requests, GetRandomPhotos.pick results err⟩

/-- The method `SearchVideo`. -/
def SearchVideo (env : Env) (c : Client) (query : String) (perPage page : Int) :
    Run (Outcome (Option VideoSearchResult × Option Error)) :=
  let url := Sprintf (VIDEO_API ++ "/search?query=%s&per_page=%d&page=%d")
    [.str query, .int perPage, .int page]
  let r := requestDoWithAuth env c "GET" url
  let out : Outcome (Option VideoSearchResult × Option Error) :=
    match r.out.2 with
    | some err => .ret (none, some err)
    | none =>
      match r.out.1 with
      | none => .panic nilDeref
      | some rp =>
        match rp.Body.ReadAll with
        | (_, some err) => .ret (none, some err)
        | (data, none) =>
          match env.UnmarshalVideoSearchResult data with
          | (_, some err) => .ret (none, some err)
          | (result, none) => .ret (some result, none)
  ⟨r.client, r.requests, out⟩

/-- The method `PopulorVideo`. -/
def PopulorVideo (env : Env) (c : Client) (perPage page : Int) :
    Run (Outcome (Option PopulorVideos × Option Error)) :=
  let url := Sprintf (VIDEO_API ++ "/populor?per_page=%d&page=%d") [.int perPage, .int page]
  let r := requestDoWithAuth env c "GET" url
  let out : Outcome (Option PopulorVideos × Option Error) :=
    match r.out.2 with
    | some err => .ret (none, some err)
    | none =>
      match r.out.1 with
      | none => .panic nilDeref
      | some rp =>
        match rp.Body.ReadAll with
        | (_, some err) => .ret (none, some err)
        | (data, none) =>
          let (result, err) := env.UnmarshalPopulorVideos data
          .ret (some result, err)
  ⟨r.client, r.requests, out⟩

/-- The statements of `GetRandomVideo` after the call of `PopulorVideo`:
`if err == nil && len(resp.Videos) == 1 { return &resp.Videos[0], nil }`
and then `return nil, err`. -/
def GetRandomVideo.pick (resp : Option PopulorVideos) (err : Option Error) :
    Outcome (Option Video × Option Error) :=
  match err with
  | some e => .ret (none, some e)
  | none =>
    match resp with
    | none => .panic nilDeref
    | some res =>
      if res.Videos.length = 1 then
        match res.Videos[0]? with
        | none => .panic indexOutOfRange
        | some v => .ret (some v, none)
      else .ret (none, none)

/-- The method `GetRandomVideo`. -/
def GetRandomVideo (env : Env) (c : Client) : Run (Outcome (Option Video × Option Error)) :=
  let randNum := env.Intn 1001
  let r := PopulorVideo env c 1 randNum
  match r.out with
  | .panic msg => ⟨r.client, r.requests, .panic msg⟩
  | .ret (resp, err) => ⟨r.client, r.requests, GetRandomVideo.pick resp err⟩

/-- The method `GetRemainingRequestInThisMonth`: the receiver after the call
and the value returned. -/
def GetRemainingRequestInThisMonth (c : Client) : Client × Int :=
  (c, c.RemainingTimes)

/-! ## Fixtures: concrete answers of the world, used to run the methods -/

/-- A photo with the given id. -/
def photoFixture (id : Int) : Photo :=
  { Id := id, Width := 640, Height := 480, Url := "u", Photographer := "ph",
    PhotographerUrl := "pu",
    Src := { Original := "o", Large := "l", Large2x := "l2", Medium := "m", Small := "s",
             Potrait := "p", Square := "sq", Landscape := "ls", Tiny := "t" } }

/-- A video with the given id. -/
def videoFixture (id : Int) : Video :=
  { Id := id, Width := 640, Height := 480, Url := "u", Image := "i", FullRes := "null",
    Duration := "1.5", VideoFiles := [], VideoPictures := [] }

/-- A response with status 200, the given headers, and a body that reads as `data`. -/
def responseFixture (header : Header) (data : String) : Response :=
  { StatusCode := 200, Header := header, Body := { ReadAll := (data, none), Close := none } }

/-- A world in which every request can be built, `Do` answers `answer`, the
decoder yields the given photos and videos without error, and the draw is 7. -/
def envFixture (answer : DoResult) (photos : List Photo) (videos : List Video) : Env :=
  { NewRequest := fun _ _ => none
    Do := fun _ => answer
    UnmarshalSearchResult := fun _ =>
      ({ Page := 1, PerPage := 15, TotalResults := 0, NextPage := "", Photos := photos }, none)
    UnmarshalCuratedResult := fun _ =>
      ({ Page := 1, PerPage := 1, NextPage := 2, Photos := photos }, none)
    UnmarshalPhoto := fun _ => (photoFixture 0, none)
    UnmarshalVideoSearchResult := fun _ =>
      ({ Page := 1, PerPage := 15, TotalResults := 0, NextPage := "", Videos := videos }, none)
    UnmarshalPopulorVideos := fun _ =>
      ({ Page := 1, PerPage := 1, TotalResults := 0, Url := "", Videos := videos }, none)
    Intn := fun _ => 7 }

/-! ## Lemmas on the library models -/

theorem formatInt_eq_toString (i : Int) : formatInt i = toString i := by
  cases i with
  | ofNat n => simp [formatInt]; rfl
  | negSucc n => simp [formatInt, Int.negSucc_lt_zero]; rfl

theorem toInt32_of_isInt32 (x : Int) (h : isInt32 x) : toInt32 x = x := by
  unfold isInt32 at h
  unfold toInt32
  omega

theorem isInt32_toInt32 (x : Int) : isInt32 (toInt32 x) := by
  unfold isInt32 toInt32
  omega

theorem Header.Get_of_lookup_none (h : Header) (key : String) (hk : h.lookup key = none) :
    Header.Get h key = "" := by
  simp [Header.Get, hk]

theorem Atoi_empty : Atoi "" = .error (.num "Atoi" "" .invalid) := by decide

/-- The error of `Atoi`, when there is one, is a `NumError` of `Atoi` on the
string it was given. -/
theorem Atoi_error (s : String) (e : Error) (h : Atoi s = .error e) :
    ∃ k, e = .num "Atoi" s k := by
  unfold Atoi at h
  split at h
  · exact absurd h (by simp)
  · rename_i k _
    injection h with h
    exact ⟨k, h.symm⟩

/-! ## The URL of each endpoint -/

theorem SearchPhotos_url (q : String) (perPage page : Int) :
    Sprintf (PHOTO_API ++ "/search?query=%s&per_page=%d&page=%d")
        [.str q, .int32 perPage, .int32 page]
      = "http://api.pexels.com/v1/search?query=" ++ q ++ "&per_page=" ++ formatInt perPage
          ++ "&page=" ++ formatInt page := by
  apply String.ext
  simp [Sprintf, PHOTO_API, sprintfAux, formatArg, formatExtra]

theorem PopulorVideo_url (perPage page : Int) :
    Sprintf (VIDEO_API ++ "/populor?per_page=%d&page=%d") [.int perPage, .int page]
      = "http://api.pexels.com/videos" ++ "/populor?per_page=" ++ formatInt perPage
          ++ "&page=" ++ formatInt page := by
  apply String.ext
  simp [Sprintf, VIDEO_API, sprintfAux, formatArg, formatExtra]

/-! ## The four ways through `requestDoWithAuth` -/

theorem requestDoWithAuth_of_newRequest_error (env : Env) (c : Client) (method url : String)
    (e : Error) (h : env.NewRequest method url = some e) :
    requestDoWithAuth env c method url = ⟨c, [(method, url)], (none, some e)⟩ := by
  simp [requestDoWithAuth, h]

theorem requestDoWithAuth_of_do_fail (env : Env) (c : Client) (method url : String)
    (resp : Option Response) (e : Error) (h : env.NewRequest method url = none)
    (hd : env.Do (authRequest c method url) = .fail resp e) :
    requestDoWithAuth env c method url = ⟨c, [(method, url)], (resp, some e)⟩ := by
  unfold authRequest at hd
  simp [requestDoWithAuth, h, hd]

theorem requestDoWithAuth_of_atoi_error (env : Env) (c : Client) (method url : String)
    (resp : Response) (e : Error) (h : env.NewRequest method url = none)
    (hd : env.Do (authRequest c method url) = .ok resp)
    (ha : Atoi (resp.Header.Get "X-Ratelimit-Remaining") = .error e) :
    requestDoWithAuth env c method url = ⟨c, [(method, url)], (some resp, some e)⟩ := by
  unfold authRequest at hd
  simp [requestDoWithAuth, h, hd, ha]

theorem requestDoWithAuth_of_atoi_ok (env : Env) (c : Client) (method url : String)
    (resp : Response) (n : Int) (h : env.NewRequest method url = none)
    (hd : env.Do (authRequest c method url) = .ok resp)
    (ha : Atoi (resp.Header.Get "X-Ratelimit-Remaining") = .ok n) :
    requestDoWithAuth env c method url
      = ⟨{ c with RemainingTimes := toInt32 n }, [(method, url)], (some resp, none)⟩ := by
  unfold authRequest at hd
  simp [requestDoWithAuth, h, hd, ha]

/-- Every run of `requestDoWithAuth` goes one of the four ways. -/
theorem requestDoWithAuth_cases (env : Env) (c : Client) (method url : String) :
    (∃ e, env.NewRequest method url = some e ∧
        requestDoWithAuth env c method url = ⟨c, [(method, url)], (none, some e)⟩) ∨
    (∃ resp e, env.NewRequest method url = none ∧
        env.Do (authRequest c method url) = .fail resp e ∧
        requestDoWithAuth env c method url = ⟨c, [(method, url)], (resp, some e)⟩) ∨
    (∃ resp e, env.NewRequest method url = none ∧
        env.Do (authRequest c method url) = .ok resp ∧
        Atoi (resp.Header.Get "X-Ratelimit-Remaining") = .error e ∧
        requestDoWithAuth env c method url = ⟨c, [(method, url)], (some resp, some e)⟩) ∨
    (∃ resp n, env.NewRequest method url = none ∧
        env.Do (authRequest c method url) = .ok resp ∧
        Atoi (resp.Header.Get "X-Ratelimit-Remaining") = .ok n ∧
        requestDoWithAuth env c method url
          = ⟨{ c with RemainingTimes := toInt32 n }, [(method, url)], (some resp, none)⟩) := by
  cases h : env.NewRequest method url with
  | some e => exact Or.inl ⟨e, rfl, requestDoWithAuth_of_newRequest_error env c method url e h⟩
  | none =>
    cases hd : env.Do (authRequest c method url) with
    | fail resp e =>
      exact Or.inr (Or.inl ⟨resp, e, rfl, rfl, requestDoWithAuth_of_do_fail env c method url resp e h hd⟩)
    | ok resp =>
      cases ha : Atoi (resp.Header.Get "X-Ratelimit-Remaining") with
      | error e =>
        exact Or.inr (Or.inr (Or.inl
          ⟨resp, e, rfl, rfl, ha, requestDoWithAuth_of_atoi_error env c method url resp e h hd ha⟩))
      | ok n =>
        exact Or.inr (Or.inr (Or.inr
          ⟨resp, n, rfl, rfl, ha, requestDoWithAuth_of_atoi_ok env c method url resp n h hd ha⟩))

theorem requestDoWithAuth_requests (env : Env) (c : Client) (method url : String) :
    (requestDoWithAuth env c method url).requests = [(method, url)] := by
  rcases requestDoWithAuth_cases env c method url with
    ⟨e, _, h⟩ | ⟨r, e, _, _, h⟩ | ⟨r, e, _, _, _, h⟩ | ⟨r, n, _, _, _, h⟩ <;> rw [h]

/-- With a nil error, `requestDoWithAuth` returns a response. -/
theorem requestDoWithAuth_resp_of_no_error (env : Env) (c : Client) (method url : String)
    (h : (requestDoWithAuth env c method url).out.2 = none) :
    ∃ resp, (requestDoWithAuth env c method url).out.1 = some resp := by
  rcases requestDoWithAuth_cases env c method url with
    ⟨e, _, h1⟩ | ⟨r, e, _, _, h1⟩ | ⟨r, e, _, _, _, h1⟩ | ⟨r, n, _, _, _, h1⟩
  · rw [h1] at h; simp at h
  · rw [h1] at h; simp at h
  · rw [h1] at h; simp at h
  · rw [h1]; exact ⟨r, rfl⟩

/-! ## Construction and the quota accessor -/

/-- C9: for every token `t`, the empty one included, `NewClient t` holds
exactly `t` as its token and the zero value 0 as its quota counter, so the
accessor `GetRemainingRequestInThisMonth` returns 0 on a fresh client; and on
any client the accessor returns the counter and leaves every field as it was. -/
theorem NewClient_token_and_unset_quota :
    (∀ t : String, (NewClient t).Token = t ∧ (NewClient t).RemainingTimes = 0 ∧
        (GetRemainingRequestInThisMonth (NewClient t)).2 = 0) ∧
    (NewClient "").Token = "" ∧
    (∀ c : Client, (GetRemainingRequestInThisMonth c).1 = c ∧
        (GetRemainingRequestInThisMonth c).2 = c.RemainingTimes) :=
  ⟨fun _ => ⟨rfl, rfl, rfl⟩, rfl, fun _ => ⟨rfl, rfl⟩⟩

/-! ## The URLs requested -/

/-- C7: for every query `q` and every `perPage` and `page`, the one request of
`SearchPhotos` is a GET of the photo base URL followed by `/search?query=`,
`q` as it is, `&per_page=`, `perPage` in decimal, `&page=` and `page` in
decimal; `q` is not escaped, so it stands in the URL as a contiguous piece,
whatever characters it holds. -/
theorem SearchPhotos_requests_unescaped_query (env : Env) (c : Client) (q : String)
    (perPage page : Int) :
    (SearchPhotos env c q perPage page).requests
      = [("GET", "http://api.pexels.com/v1/search?query=" ++ q ++ "&per_page=" ++
            toString perPage ++ "&page=" ++ toString page)] ∧
    ∃ before after : String,
      (SearchPhotos env c q perPage page).requests = [("GET", before ++ q ++ after)] := by
  have h : (SearchPhotos env c q perPage page).requests
      = [("GET", "http://api.pexels.com/v1/search?query=" ++ q ++ "&per_page=" ++
            toString perPage ++ "&page=" ++ toString page)] := by
    simp only [SearchPhotos, requestDoWithAuth_requests, SearchPhotos_url,
      formatInt_eq_toString]
  refine ⟨h, "http://api.pexels.com/v1/search?query=",
    "&per_page=" ++ toString perPage ++ "&page=" ++ toString page, ?_⟩
  rw [h]
  simp [String.append_assoc]

/-- C8, the code as it is: for every `perPage` and `page`, the one request of
`PopulorVideo` is a GET of the video base URL followed by
`/populor?per_page=`, `perPage` in decimal, `&page=` and `page` in decimal.
The path is spelled `populor`, so the URL is never the one of the `popular`
endpoint. -/
theorem PopulorVideo_requests_populor (env : Env) (c : Client) (perPage page : Int) :
    (PopulorVideo env c perPage page).requests
      = [("GET", "http://api.pexels.com/videos" ++ "/populor?per_page=" ++
            toString perPage ++ "&page=" ++ toString page)] ∧
    (PopulorVideo env c perPage page).requests
      ≠ [("GET", "http://api.pexels.com/videos" ++ "/popular?per_page=" ++
            toString perPage ++ "&page=" ++ toString page)] := by
  have h : (PopulorVideo env c perPage page).requests
      = [("GET", "http://api.pexels.com/videos" ++ "/populor?per_page=" ++
            toString perPage ++ "&page=" ++ toString page)] := by
    simp only [PopulorVideo, requestDoWithAuth_requests, PopulorVideo_url,
      formatInt_eq_toString]
  refine ⟨h, ?_⟩
  rw [h]
  simp [String.ext_iff]

/-! ## The quota header -/

/-- C2 as stated fails: a response without the `X-Ratelimit-Remaining` header
makes `requestDoWithAuth` return, with the response, the syntax error of
`Atoi` on the empty string, not a nil error. -/
theorem requestDoWithAuth_missing_header_returns_error :
    (requestDoWithAuth (envFixture (.ok (responseFixture [] "data")) [] []) (NewClient "t")
        "GET" "http://api.pexels.com/v1/curated").out
      = (some (responseFixture [] "data"), some (.num "Atoi" "" .invalid)) ∧
    (requestDoWithAuth (envFixture (.ok (responseFixture [] "data")) [] []) (NewClient "t")
        "GET" "http://api.pexels.com/v1/curated").out
      ≠ (some (responseFixture [] "data"), none) := by
  decide

/-- C2 amended: for every client, method and URL, when the transport returns a
response whose `X-Ratelimit-Remaining` header is absent or is not accepted by
`Atoi`, `requestDoWithAuth` returns that response together with the error of
`Atoi` on the header value (a `NumError` of `Atoi`; on the empty string when
the header is absent): the error is not nil. -/
theorem requestDoWithAuth_returns_header_error (env : Env) (c : Client) (method url : String)
    (resp : Response) (hn : env.NewRequest method url = none)
    (hd : env.Do (authRequest c method url) = .ok resp)
    (hh : resp.Header.lookup "X-Ratelimit-Remaining" = none ∨
      ∃ e, Atoi (resp.Header.Get "X-Ratelimit-Remaining") = .error e) :
    ∃ k, (requestDoWithAuth env c method url).out
        = (some resp, some (.num "Atoi" (resp.Header.Get "X-Ratelimit-Remaining") k)) ∧
      (resp.Header.lookup "X-Ratelimit-Remaining" = none →
        (requestDoWithAuth env c method url).out = (some resp, some (.num "Atoi" "" .invalid))) := by
  have hab : resp.Header.lookup "X-Ratelimit-Remaining" = none →
      Atoi (resp.Header.Get "X-Ratelimit-Remaining") = .error (.num "Atoi" "" .invalid) := by
    intro h0
    rw [Header.Get_of_lookup_none _ _ h0]
    exact Atoi_empty
  have he : ∃ e, Atoi (resp.Header.Get "X-Ratelimit-Remaining") = .error e := by
    rcases hh with h0 | h1
    · exact ⟨_, hab h0⟩
    · exact h1
  obtain ⟨e, ha⟩ := he
  obtain ⟨k, hk⟩ := Atoi_error _ _ ha
  refine ⟨k, ?_, ?_⟩
  · rw [requestDoWithAuth_of_atoi_error env c method url resp e hn hd ha, hk]
  · intro h0
    rw [requestDoWithAuth_of_atoi_error env c method url resp _ hn hd (hab h0)]

theorem requestDoWithAuth_returns_header_error_witness :
    (requestDoWithAuth (envFixture (.ok (responseFixture
          [("X-Ratelimit-Remaining", ["soon"])] "data")) [] []) (NewClient "t")
        "GET" "http://api.pexels.com/v1/curated").out.1
      = some (responseFixture [("X-Ratelimit-Remaining", ["soon"])] "data") ∧
    (requestDoWithAuth (envFixture (.ok (responseFixture
          [("X-Ratelimit-Remaining", ["soon"])] "data")) [] []) (NewClient "t")
        "GET" "http://api.pexels.com/v1/curated").out.2 ≠ none :=
  (requestDoWithAuth_returns_header_error
    (envFixture (.ok (responseFixture [("X-Ratelimit-Remaining", ["soon"])] "data")) [] [])
    (NewClient "t") "GET" "http://api.pexels.com/v1/curated"
    (responseFixture [("X-Ratelimit-Remaining", ["soon"])] "data") rfl rfl
    (Or.inr ⟨.num "Atoi" "soon" .invalid, by decide⟩)).elim
    fun _ h => ⟨by rw [h.1], by rw [h.1]; simp⟩

/-- C4 as stated fails: the header value `4294967338` is accepted by `Atoi` as
the integer 4294967338 and the request succeeds, but the counter, an `int32`,
is then 42, and so is what the accessor returns. -/
theorem requestDoWithAuth_quota_wraps :
    Atoi "4294967338" = .ok 4294967338 ∧
    (requestDoWithAuth (envFixture (.ok (responseFixture
          [("X-Ratelimit-Remaining", ["4294967338"])] "data")) [] []) (NewClient "t")
        "GET" "http://api.pexels.com/v1/curated").out.2 = none ∧
    (GetRemainingRequestInThisMonth (requestDoWithAuth (envFixture (.ok (responseFixture
          [("X-Ratelimit-Remaining", ["4294967338"])] "data")) [] []) (NewClient "t")
        "GET" "http://api.pexels.com/v1/curated").client).2 = 42 ∧
    (requestDoWithAuth (envFixture (.ok (responseFixture
          [("X-Ratelimit-Remaining", ["4294967338"])] "data")) [] []) (NewClient "t")
        "GET" "http://api.pexels.com/v1/curated").client.RemainingTimes ≠ 4294967338 := by
  decide

/-- C4 amended: for every response whose `X-Ratelimit-Remaining` value is
accepted by `Atoi` as the integer `n`, `requestDoWithAuth` returns the response
with a nil error, and afterwards the quota counter is `n` converted to `int32`
and `GetRemainingRequestInThisMonth` returns that value; it is `n` itself
whenever `n` is an `int32` (as for the header value 42). -/
theorem requestDoWithAuth_sets_quota (env : Env) (c : Client) (method url : String)
    (resp : Response) (n : Int) (hn : env.NewRequest method url = none)
    (hd : env.Do (authRequest c method url) = .ok resp)
    (ha : Atoi (resp.Header.Get "X-Ratelimit-Remaining") = .ok n) :
    (requestDoWithAuth env c method url).out = (some resp, none) ∧
    (requestDoWithAuth env c method url).client.RemainingTimes = toInt32 n ∧
    (GetRemainingRequestInThisMonth (requestDoWithAuth env c method url).client).2 = toInt32 n ∧
    (isInt32 n →
      (requestDoWithAuth env c method url).client.RemainingTimes = n ∧
      (GetRemainingRequestInThisMonth (requestDoWithAuth env c method url).client).2 = n) := by
  rw [requestDoWithAuth_of_atoi_ok env c method url resp n hn hd ha]
  refine ⟨rfl, rfl, rfl, fun h => ?_⟩
  simp only [GetRemainingRequestInThisMonth, toInt32_of_isInt32 n h, and_self]

theorem requestDoWithAuth_sets_quota_witness :
    (requestDoWithAuth (envFixture (.ok (responseFixture
          [("X-Ratelimit-Remaining", ["42"])] "data")) [] []) (NewClient "t")
        "GET" "http://api.pexels.com/v1/curated").client.RemainingTimes = 42 ∧
    (GetRemainingRequestInThisMonth (requestDoWithAuth (envFixture (.ok (responseFixture
          [("X-Ratelimit-Remaining", ["42"])] "data")) [] []) (NewClient "t")
        "GET" "http://api.pexels.com/v1/curated").client).2 = 42 :=
  (requestDoWithAuth_sets_quota
    (envFixture (.ok (responseFixture [("X-Ratelimit-Remaining", ["42"])] "data")) [] [])
    (NewClient "t") "GET" "http://api.pexels.com/v1/curated"
    (responseFixture [("X-Ratelimit-Remaining", ["42"])] "data") 42 rfl rfl
    (by decide)).2.2.2 (by decide)

/-- C5: for every client, method, URL and world, `requestDoWithAuth` leaves the
token (and the transport) of the client as they were; and when the request
cannot be built, or the transport fails, or the response comes without the
`X-Ratelimit-Remaining` header or with a value that `Atoi` rejects, the quota
counter after the call is the counter before it. -/
theorem requestDoWithAuth_frame (env : Env) (c : Client) (method url : String) :
    (requestDoWithAuth env c method url).client.Token = c.Token ∧
    (requestDoWithAuth env c method url).client.hc = c.hc ∧
    (((∃ e, env.NewRequest method url = some e) ∨
      (∃ resp e, env.Do (authRequest c method url) = .fail resp e) ∨
      (∃ resp, env.Do (authRequest c method url) = .ok resp ∧
        (resp.Header.lookup "X-Ratelimit-Remaining" = none ∨
          ∃ e, Atoi (resp.Header.Get "X-Ratelimit-Remaining") = .error e))) →
      (requestDoWithAuth env c method url).client.RemainingTimes = c.RemainingTimes) := by
  rcases requestDoWithAuth_cases env c method url with
    ⟨e, _, h⟩ | ⟨r, e, _, _, h⟩ | ⟨r, e, _, _, _, h⟩ | ⟨r, n, hn, hd, ha, h⟩
  · rw [h]; exact ⟨rfl, rfl, fun _ => rfl⟩
  · rw [h]; exact ⟨rfl, rfl, fun _ => rfl⟩
  · rw [h]; exact ⟨rfl, rfl, fun _ => rfl⟩
  · rw [h]
    refine ⟨rfl, rfl, fun hyp => ?_⟩
    exfalso
    rcases hyp with ⟨e, he⟩ | ⟨r2, e, he⟩ | ⟨r2, he, h0 | ⟨e, he2⟩⟩
    · rw [hn] at he; exact absurd he (by simp)
    · rw [hd] at he; exact absurd he (by simp)
    · rw [hd] at he
      injection he with he
      subst he
      rw [Header.Get_of_lookup_none _ _ h0, Atoi_empty] at ha
      exact absurd ha (by simp)
    · rw [hd] at he
      injection he with he
      subst he
      rw [ha] at he2
      exact absurd he2 (by simp)

theorem requestDoWithAuth_frame_witness :
    (requestDoWithAuth (envFixture (.ok (responseFixture [] "data")) [] [])
        { Token := "t", hc := {}, RemainingTimes := 17 }
        "GET" "http://api.pexels.com/v1/curated").client.RemainingTimes = 17 :=
  (requestDoWithAuth_frame (envFixture (.ok (responseFixture [] "data")) [] [])
    { Token := "t", hc := {}, RemainingTimes := 17 }
    "GET" "http://api.pexels.com/v1/curated").2.2
    (Or.inr (Or.inr ⟨responseFixture [] "data", rfl, Or.inl rfl⟩))

/-! ## Outcomes of the listing requests -/

/-- The method `PopulorVideo` always returns, and never returns nil with a nil error. -/
theorem PopulorVideo_out (env : Env) (c : Client) (perPage page : Int) :
    (∃ e, (PopulorVideo env c perPage page).out = .ret (none, some e)) ∨
    (∃ res err, (PopulorVideo env c perPage page).out = .ret (some res, err)) := by
  unfold PopulorVideo
  simp only []
  generalize Sprintf (VIDEO_API ++ "/populor?per_page=%d&page=%d") [.int perPage, .int page] = url
  rcases requestDoWithAuth_cases env c "GET" url with
    ⟨e, _, h⟩ | ⟨r, e, _, _, h⟩ | ⟨r, e, _, _, _, h⟩ | ⟨r, n, _, _, _, h⟩
  · rw [h]; exact Or.inl ⟨e, rfl⟩
  · rw [h]; exact Or.inl ⟨e, rfl⟩
  · rw [h]; exact Or.inl ⟨e, rfl⟩
  · rw [h]
    rcases hr : r.Body.ReadAll with ⟨data, _ | e⟩
    · right
      simp only [hr]
      exact ⟨_, _, rfl⟩
    · left
      simp only [hr]
      exact ⟨e, rfl⟩

theorem GetRandomVideo_out (env : Env) (c : Client) (resp : Option PopulorVideos)
    (err : Option Error) (h : (PopulorVideo env c 1 (env.Intn 1001)).out = .ret (resp, err)) :
    (GetRandomVideo env c).out = GetRandomVideo.pick resp err := by
  simp [GetRandomVideo, h]

theorem GetRandomPhotos_out (env : Env) (c : Client) (results : Option CuratedResult)
    (err : Option Error) (h : (CuratedPhotos env c 1 (env.Intn 1001)).out = .ret (results, err)) :
    (GetRandomPhotos env c).out = GetRandomPhotos.pick results err := by
  simp [GetRandomPhotos, h]

/-! ## The random picks -/

/-- C6: for every outcome `(resp, err)` of the popular-videos request,
`GetRandomVideo` returns the first video with a nil error when `err` is nil and
the result holds exactly one video, and in every other case returns no video
together with `err`; so it returns a video if and only if `err` is nil and
there is exactly one, and a listing with zero or with two or more videos and a
nil error yields no video and a nil error. -/
theorem GetRandomVideo_exactly_one (env : Env) (c : Client) (resp : Option PopulorVideos)
    (err : Option Error) (h : (PopulorVideo env c 1 (env.Intn 1001)).out = .ret (resp, err)) :
    (∀ res v, err = none → resp = some res → res.Videos.length = 1 → res.Videos[0]? = some v →
        (GetRandomVideo env c).out = .ret (some v, none)) ∧
    (¬ (err = none ∧ ∃ res, resp = some res ∧ res.Videos.length = 1) →
        (GetRandomVideo env c).out = .ret (none, err)) ∧
    ((∃ v e, (GetRandomVideo env c).out = .ret (some v, e)) ↔
        (err = none ∧ ∃ res, resp = some res ∧ res.Videos.length = 1)) ∧
    (∀ res, err = none → resp = some res → res.Videos.length ≠ 1 →
        (GetRandomVideo env c).out = .ret (none, none)) := by
  rw [GetRandomVideo_out env c resp err h]
  have hsome : err = none → ∃ res, resp = some res := by
    intro he
    rcases PopulorVideo_out env c 1 (env.Intn 1001) with ⟨e, h1⟩ | ⟨res, err1, h1⟩
    · rw [h1] at h
      injection h with h
      injection h with _ h2
      rw [he] at h2
      exact absurd h2 (by simp)
    · rw [h1] at h
      injection h with h
      injection h with h2 _
      exact ⟨res, h2.symm⟩
  have hOne : ∀ res, resp = some res → res.Videos.length = 1 → err = none →
      ∃ v, res.Videos[0]? = some v ∧ GetRandomVideo.pick resp err = .ret (some v, none) := by
    intro res hr hl he
    subst hr he
    match hv : res.Videos, hl with
    | [v], _ => exact ⟨v, rfl, by simp [GetRandomVideo.pick, hv]⟩
  have hOther : ¬ (err = none ∧ ∃ res, resp = some res ∧ res.Videos.length = 1) →
      GetRandomVideo.pick resp err = .ret (none, err) := by
    intro hno
    cases err with
    | some e => rfl
    | none =>
      obtain ⟨res, hr⟩ := hsome rfl
      subst hr
      have hl : res.Videos.length ≠ 1 := fun hl => hno ⟨rfl, res, rfl, hl⟩
      simp [GetRandomVideo.pick, hl]
  refine ⟨?_, hOther, ⟨?_, ?_⟩, ?_⟩
  · intro res v he hr hl hv
    obtain ⟨w, hw, hp⟩ := hOne res hr hl he
    rw [hv] at hw
    injection hw with hw
    rw [hp, hw]
  · rintro ⟨v, e, hv⟩
    by_contra hno
    rw [hOther hno] at hv
    injection hv with hv
    injection hv with hv _
    exact absurd hv (by simp)
  · rintro ⟨he, res, hr, hl⟩
    obtain ⟨v, _, hp⟩ := hOne res hr hl he
    exact ⟨v, none, hp⟩
  · intro res he hr hl
    have := hOther (fun hc => by
      obtain ⟨_, res2, hr2, hl2⟩ := hc
      rw [hr] at hr2
      injection hr2 with hr2
      subst hr2
      exact hl hl2)
    rw [this, he]

theorem GetRandomVideo_exactly_one_witness :
    (GetRandomVideo (envFixture (.ok (responseFixture [("X-Ratelimit-Remaining", ["42"])]
        "data")) [] [videoFixture 3]) (NewClient "t")).out = .ret (some (videoFixture 3), none) :=
  (GetRandomVideo_exactly_one
    (envFixture (.ok (responseFixture [("X-Ratelimit-Remaining", ["42"])] "data")) []
      [videoFixture 3])
    (NewClient "t")
    (some { Page := 1, PerPage := 1, TotalResults := 0, Url := "", Videos := [videoFixture 3] })
    none (by decide)).1 _ (videoFixture 3) rfl rfl rfl rfl

/-- C10: for every outcome of the curated-listing request with a nil error and
an empty photo sequence, `GetRandomPhotos` enters the branch that returns a
photo and reads element 0 of the empty sequence, which is a run-time panic
(index out of range), not a returned photo and not a returned error; with a nil
error and a sequence that is not empty the branch is not entered and the method
returns no photo and a nil error, so no photo is ever returned. -/
theorem GetRandomPhotos_empty_listing_panics (env : Env) (c : Client) (res : CuratedResult)
    (h : (CuratedPhotos env c 1 (env.Intn 1001)).out = .ret (some res, none)) :
    (res.Photos = [] → (GetRandomPhotos env c).out = .panic indexOutOfRange) ∧
    (res.Photos ≠ [] → (GetRandomPhotos env c).out = .ret (none, none)) ∧
    (∀ p e, (GetRandomPhotos env c).out ≠ .ret (some p, e)) := by
  rw [GetRandomPhotos_out env c (some res) none h]
  have hE : res.Photos = [] → GetRandomPhotos.pick (some res) none = .panic indexOutOfRange := by
    intro he
    simp [GetRandomPhotos.pick, he]
  have hN : res.Photos ≠ [] → GetRandomPhotos.pick (some res) none = .ret (none, none) := by
    intro hne
    simp [GetRandomPhotos.pick, hne]
  refine ⟨hE, hN, fun p e hp => ?_⟩
  by_cases he : res.Photos = []
  · rw [hE he] at hp
    exact absurd hp (by simp)
  · rw [hN he] at hp
    injection hp with hp
    injection hp with hp _
    exact absurd hp (by simp)

theorem GetRandomPhotos_empty_listing_panics_witness :
    (GetRandomPhotos (envFixture (.ok (responseFixture [("X-Ratelimit-Remaining", ["42"])]
        "data")) [] []) (NewClient "t")).out = .panic indexOutOfRange :=
  (GetRandomPhotos_empty_listing_panics
    (envFixture (.ok (responseFixture [("X-Ratelimit-Remaining", ["42"])] "data")) [] [])
    (NewClient "t") { Page := 1, PerPage := 1, NextPage := 2, Photos := [] }
    (by decide)).1 rfl

/-- C3, the code as it is: when the curated listing comes back with a nil error
and one photo, `GetRandomPhotos` returns no photo and a nil error; and so it
does for every listing that is not empty, the test before the return being
`len(results.Photos) == 0`. -/
theorem GetRandomPhotos_nonempty_listing_returns_nothing :
    (CuratedPhotos (envFixture (.ok (responseFixture [("X-Ratelimit-Remaining", ["42"])]
        "data")) [photoFixture 5] []) (NewClient "t") 1 7).out
      = .ret (some { Page := 1, PerPage := 1, NextPage := 2, Photos := [photoFixture 5] }, none) ∧
    (GetRandomPhotos (envFixture (.ok (responseFixture [("X-Ratelimit-Remaining", ["42"])]
        "data")) [photoFixture 5] []) (NewClient "t")).out = .ret (none, none) ∧
    (∀ (page perPage nextPage : Int) (p : Photo) (ps : List Photo),
      GetRandomPhotos.pick
        (some { Page := page, PerPage := perPage, NextPage := nextPage, Photos := p :: ps }) none
        = .ret (none, none)) := by
  refine ⟨by decide, by decide, fun _ _ _ _ _ => ?_⟩
  simp [GetRandomPhotos.pick]

/-! ## The deferred close of `SearchPhotos` -/

/-- C1, the code as it is: for every query, `perPage` and `page`, when the
request cannot be built, or the transport fails and gives no response,
`SearchPhotos` does not return: the deferred closure reads `resp.Body` through
the nil `resp` and the call panics.  In the same worlds `CuratedPhotos`, which
tests the error before it defers the close, returns no result and the error. -/
theorem SearchPhotos_panics_without_response (env : Env) (c : Client) (q : String)
    (perPage page : Int) (e : Error) :
    (SearchPhotos { env with NewRequest := fun _ _ => some e } c q perPage page).out
      = .panic nilDeref ∧
    (SearchPhotos { env with NewRequest := fun _ _ => none, Do := fun _ => .fail none e }
        c q perPage page).out = .panic nilDeref ∧
    (CuratedPhotos { env with NewRequest := fun _ _ => some e } c perPage page).out
      = .ret (none, some e) ∧
    (CuratedPhotos { env with NewRequest := fun _ _ => none, Do := fun _ => .fail none e }
        c perPage page).out = .ret (none, some e) := by
  refine ⟨?_, ?_, ?_, ?_⟩ <;> simp [SearchPhotos, CuratedPhotos, requestDoWithAuth]

end Pexels
